import Mathlib

/-!
Verification of the core algorithms of the aliyun spot-instance manager:
the region classifier and traffic aggregator (internal/aliyun/traffic.go),
the billing aggregator (internal/aliyun, QueryBilling), the notification
cooldown governor and the remediation state machine (internal/monitor/monitor.go),
the ECS start wrapper (internal/aliyun/ecs.go), the reachability wait loop
(internal/health/ping.go) and the environment-variable defaults
(internal/config/config.go).

Conventions of the embedding:
* Go `float64` money/duration values are embedded as `ℚ` (the program only
  adds, divides and compares them; all constants in the claims are exact
  in `ℚ`).
* Go `int64` byte counters are embedded as `ℤ`.
* Go `time.Time`/`time.Duration` are embedded as `ℤ` nanoseconds.
* External API calls are embedded as oracle fields; the code under
  verification is the pure decision logic around them.
* Time-driven loops (ticker polls, health probes) are embedded with an
  explicit fuel argument equal to the number of iterations the wall-clock
  deadline admits.
-/

namespace AliyunSpot

/-! # Definitions -/

/-! ## Region classifier (internal/aliyun/traffic.go) -/

/-- `ChinaMainlandRegions` from traffic.go: the fixed allow-list of
region identifiers considered China Mainland (the Go `map[string]bool`
with every stored value `true` is embedded as the list of its keys). -/
def ChinaMainlandRegions : List String :=
  ["cn-qingdao", "cn-beijing", "cn-zhangjiakou", "cn-huhehaote",
   "cn-wulanchabu", "cn-hangzhou", "cn-shanghai", "cn-nanjing",
   "cn-fuzhou", "cn-shenzhen", "cn-heyuan", "cn-guangzhou",
   "cn-chengdu", "cn-nanjing-finance", "cn-shanghai-finance-1",
   "cn-shenzhen-finance-1"]

/-- Embedding of Go `strings.HasPrefix(regionId, "cn-")`, computed on the
character lists so that the kernel can evaluate it. -/
def hasDomesticPrefix (regionId : String) : Bool :=
  "cn-".data.isPrefixOf regionId.data

/-- `IsChinaMainlandRegion` from traffic.go: exact allow-list match first,
then the `cn-` prefix rule with the `cn-hongkong` carve-out. -/
def IsChinaMainlandRegion (regionId : String) : Bool :=
  if regionId ∈ ChinaMainlandRegions then true
  else if hasDomesticPrefix regionId && regionId != "cn-hongkong" then true
  else false

/-! ## Traffic aggregator (internal/aliyun/traffic.go) -/

/-- `ProductTrafficDetail` from traffic.go. -/
structure ProductTrafficDetail where
  product : String
  traffic : ℤ
deriving DecidableEq

/-- `RegionTrafficDetail` from traffic.go (the fields the aggregation
reads; `ISPType` and `TrafficTierDetails` are carried by the API response
but never used by `QueryInternetTrafficByTimeRange`). -/
structure RegionTrafficDetail where
  businessRegionId : String
  traffic : ℤ
  productTrafficDetails : List ProductTrafficDetail
deriving DecidableEq

/-- `TrafficRegionSummary` from traffic.go (the Go
`map[string]int64` of product details is embedded as an association
list updated in place). -/
structure TrafficRegionSummary where
  traffic : ℤ
  regions : List String
  regionCount : ℕ
  productDetails : List (String × ℤ)
deriving DecidableEq

/-- Upsert-add into the product-details map, the embedding of
`summary.ProductDetails[pd.Product] += pd.Traffic` on a Go map. -/
def mapAdd : List (String × ℤ) → String → ℤ → List (String × ℤ)
  | [], k, v => [(k, v)]
  | (k', v') :: rest, k, v =>
    if k' = k then (k', v' + v) :: rest else (k', v') :: mapAdd rest k v

/-- Accumulate one region's product breakdown into a bucket's map. -/
def addProducts (m : List (String × ℤ)) (pds : List ProductTrafficDetail) :
    List (String × ℤ) :=
  pds.foldl (fun acc pd => mapAdd acc pd.product pd.traffic) m

/-- The mutable summary built by `QueryInternetTrafficByTimeRange`
(only the categorization state; times and GB conversions are display). -/
structure TrafficSummary where
  totalTraffic : ℤ
  chinaMainland : TrafficRegionSummary
  nonChinaMainland : TrafficRegionSummary
deriving DecidableEq

/-- Initial summary: zero totals, empty buckets. -/
def initTrafficSummary : TrafficSummary :=
  { totalTraffic := 0
    chinaMainland := { traffic := 0, regions := [], regionCount := 0, productDetails := [] }
    nonChinaMainland := { traffic := 0, regions := [], regionCount := 0, productDetails := [] } }

/-- One iteration of the categorization loop of
`QueryInternetTrafficByTimeRange` (traffic.go lines 166-184). -/
def trafficStep (s : TrafficSummary) (d : RegionTrafficDetail) : TrafficSummary :=
  let s := { s with totalTraffic := s.totalTraffic + d.traffic }
  if IsChinaMainlandRegion d.businessRegionId then
    { s with chinaMainland :=
        { traffic := s.chinaMainland.traffic + d.traffic
          regions := s.chinaMainland.regions ++ [d.businessRegionId]
          regionCount := s.chinaMainland.regionCount + 1
          productDetails := addProducts s.chinaMainland.productDetails d.productTrafficDetails } }
  else
    { s with nonChinaMainland :=
        { traffic := s.nonChinaMainland.traffic + d.traffic
          regions := s.nonChinaMainland.regions ++ [d.businessRegionId]
          regionCount := s.nonChinaMainland.regionCount + 1
          productDetails := addProducts s.nonChinaMainland.productDetails d.productTrafficDetails } }

/-- The categorization loop of `QueryInternetTrafficByTimeRange`:
fold the per-region traffic details into the summary. -/
def categorizeTraffic (details : List RegionTrafficDetail) : TrafficSummary :=
  details.foldl trafficStep initTrafficSummary

/-! ## Cooldown governor (internal/monitor/monitor.go) -/

/-- The `lastNotify` map of the monitor, embedded as an association list;
insertion prepends, lookup takes the first hit, which matches Go map
upsert/read semantics extensionally. -/
def lookupTime : List (String × ℤ) → String → Option ℤ
  | [], _ => none
  | (k, v) :: rest, id => if k = id then some v else lookupTime rest id

/-- `time.Duration(cooldownSec) * time.Second` in nanoseconds. -/
def cooldownWindowNanos (cooldownSec : ℤ) : ℤ := cooldownSec * 1000000000

/-- `canNotify` from monitor.go: true when no entry is recorded for the
instance, or when `time.Since(lastTime)` strictly exceeds the cooldown
window. `now` and the recorded time are nanosecond timestamps. -/
def canNotify (lastNotify : List (String × ℤ)) (cooldownSec : ℤ)
    (instanceID : String) (now : ℤ) : Bool :=
  match lookupTime lastNotify instanceID with
  | none => true
  | some lastTime => decide (now - lastTime > cooldownWindowNanos cooldownSec)

/-- `updateNotifyTime` from monitor.go: unconditional upsert of the
current time for the instance. -/
def updateNotifyTime (lastNotify : List (String × ℤ)) (instanceID : String)
    (now : ℤ) : List (String × ℤ) :=
  (instanceID, now) :: lastNotify

/-! ## Billing aggregator (internal/aliyun, QueryBilling) -/

/-- One raw billing line item as read from the BSS response inside
`QueryBilling` (the fields the aggregation logic uses).
`servicePeriod = none` embeds both an empty `ServicePeriod` string and a
`Sscanf` parse failure; `some v` embeds the parsed `%f` value, which
`parseServicePeriod` returns unchanged when the unit is `秒` (seconds). -/
structure RawBillItem where
  instanceID : String
  instanceSpec : String
  billingItem : String
  servicePeriod : Option ℚ
  servicePeriodUnit : String
  pretaxAmount : ℚ
deriving DecidableEq

/-- One step of the `instanceRunningSeconds` accumulation in
`QueryBilling`: for a tracked item of this instance whose duration unit is
seconds, keep the larger of the accumulated value and the parsed period
(the Go map defaults to 0; the tracked check is the loop-top `continue`). -/
def runningSecondsStep (tracked : List String) (id : String) (acc : ℚ)
    (it : RawBillItem) : ℚ :=
  if it.instanceID ∈ tracked ∧ it.instanceID = id ∧ it.servicePeriodUnit = "秒" then
    match it.servicePeriod with
    | some v => if v > acc then v else acc
    | none => acc
  else acc

/-- `instanceRunningSeconds[id]` after the `QueryBilling` item loop. -/
def runningSeconds (tracked : List String) (items : List RawBillItem)
    (id : String) : ℚ :=
  items.foldl (runningSecondsStep tracked id) 0

/-- The parsed seconds-unit service periods of one instance's tracked
items, in item order: exactly the values the accumulation above sees. -/
def eligibleSeconds (tracked : List String) (items : List RawBillItem)
    (id : String) : List ℚ :=
  items.filterMap fun it =>
    if it.instanceID ∈ tracked ∧ it.instanceID = id ∧ it.servicePeriodUnit = "秒"
    then it.servicePeriod else none

/-- `summary.TotalAmount` for one instance: the sum of `PretaxAmount`
over that instance's tracked items. -/
def instTotalAmount (tracked : List String) (items : List RawBillItem)
    (id : String) : ℚ :=
  ((items.filter fun it =>
      decide (it.instanceID ∈ tracked ∧ it.instanceID = id)).map
    RawBillItem.pretaxAmount).sum

/-- `summary.RunningHours` (QueryBilling lines 462-469): set to
`seconds/3600` only when the deduplicated seconds are positive,
otherwise left at its zero value. -/
def runningHours (tracked : List String) (items : List RawBillItem)
    (id : String) : ℚ :=
  let s := runningSeconds tracked items id
  if 0 < s then s / 3600 else 0

/-- `summary.HourlyCost`: `TotalAmount / RunningHours`, set only when the
running seconds and the total amount are both positive. -/
def hourlyCost (tracked : List String) (items : List RawBillItem)
    (id : String) : ℚ :=
  let s := runningSeconds tracked items id
  let t := instTotalAmount tracked items id
  if 0 < s then (if 0 < t then t / (s / 3600) else 0) else 0

/-- The distinct tracked instance ids appearing in the billing items, in
first-occurrence order. Go iterates the `instanceBillings` map in an
unspecified order; every quantity proved below is order-invariant, so the
first-occurrence order stands in for it. -/
def billedIdsFrom (tracked : List String) (acc : List String) :
    List RawBillItem → List String
  | [] => acc
  | it :: rest =>
    if it.instanceID ∈ tracked ∧ ¬ it.instanceID ∈ acc then
      billedIdsFrom tracked (acc ++ [it.instanceID]) rest
    else billedIdsFrom tracked acc rest

/-- The ids of the per-instance summaries built by `QueryBilling`. -/
def billedIds (tracked : List String) (items : List RawBillItem) : List String :=
  billedIdsFrom tracked [] items

/-- `totalHourlyCost` (QueryBilling lines 476-481): sum of the strictly
positive per-instance hourly costs. -/
def totalHourlyCost (tracked : List String) (items : List RawBillItem) : ℚ :=
  (billedIds tracked items).foldl
    (fun acc id =>
      if 0 < hourlyCost tracked items id then acc + hourlyCost tracked items id
      else acc) 0

/-- `result.TotalAmount`: sum of the per-instance totals. -/
def resultTotalAmount (tracked : List String) (items : List RawBillItem) : ℚ :=
  ((billedIds tracked items).map (instTotalAmount tracked items)).sum

/-- `result.EstimateMethod` abstracted: each constructor stands for the
corresponding `fmt.Sprintf` description built by `QueryBilling`, with its
numeric payload; `noDescription` is the empty string. -/
inductive EstimateMethod where
  | hourlyRate (totalHourly : ℚ)
  | byElapsedDays (dailyRate : ℚ)
  | noDescription
deriving DecidableEq

/-- The monthly-estimate selection of `QueryBilling` (lines 483-494):
tier 1 multiplies the summed hourly costs by 30 × 24; tier 2 divides the
total amount by the elapsed days and multiplies by 30 (guarded by
`elapsedDays > 0`); otherwise the estimate is 0 with no description. -/
def monthlyEstimate (tracked : List String) (items : List RawBillItem)
    (elapsedDays : ℕ) : ℚ × EstimateMethod :=
  let thc := totalHourlyCost tracked items
  let total := resultTotalAmount tracked items
  if 0 < thc then (thc * 30 * 24, .hourlyRate thc)
  else if 0 < total then
    if 0 < elapsedDays then
      (total / (elapsedDays : ℚ) * 30, .byElapsedDays (total / (elapsedDays : ℚ)))
    else (0, .noDescription)
  else (0, .noDescription)

/-- The dedup test vector: three billing items of the same instance, two
reporting 3600 seconds and one reporting 7200 seconds. -/
def exampleBillItems : List RawBillItem :=
  [{ instanceID := "i-dedup", instanceSpec := "ecs.t6-c4m1.large",
     billingItem := "系统盘", servicePeriod := some 3600,
     servicePeriodUnit := "秒", pretaxAmount := 1 },
   { instanceID := "i-dedup", instanceSpec := "ecs.t6-c4m1.large",
     billingItem := "ImageOS", servicePeriod := some 3600,
     servicePeriodUnit := "秒", pretaxAmount := 1 },
   { instanceID := "i-dedup", instanceSpec := "ecs.t6-c4m1.large",
     billingItem := "云服务器配置", servicePeriod := some 7200,
     servicePeriodUnit := "秒", pretaxAmount := 1 }]

/-! ## Remediation state machine (internal/monitor/monitor.go,
internal/aliyun/ecs.go, internal/health/ping.go, internal/config/config.go) -/

/-- `SpotInstance` from ecs.go. -/
structure SpotInstance where
  instanceID : String
  instanceName : String
  regionID : String
  status : String
  publicIPAddress : String
  privateIPAddress : String
  spotStrategy : String
deriving DecidableEq

/-- The notifications the monitor can send, one constructor per
`TelegramNotifier.Notify*` method the monitor calls (each stands for the
corresponding formatted message with its data payload). -/
inductive Event where
  | monitorStarted (count : ℕ) (ids : List String)
  | reclaimed (id : String)
  | started (id : String) (publicIP : String)
  | startFailed (id : String) (retryCount : ℕ) (lastErr : Option String)
  | healthCheckTimeout (id : String) (publicIP : String) (timeoutSec : ℕ)
deriving DecidableEq

/-- Recognizer for failure alerts. -/
def Event.isStartFailed : Event → Bool
  | .startFailed _ _ _ => true
  | _ => false

/-- Recognizer for success alerts. -/
def Event.isStarted : Event → Bool
  | .started _ _ => true
  | _ => false

/-- Recognizer for the monitor-started notification. -/
def Event.isMonitorStarted : Event → Bool
  | .monitorStarted _ _ => true
  | _ => false

/-- Recognizer for the health-check-timeout alert. -/
def Event.isHealthCheckTimeout : Event → Bool
  | .healthCheckTimeout _ _ _ => true
  | _ => false

/-- Substring occurrence on character lists (some suffix starts with the
pattern). -/
def subListOccurs (pat : List Char) : List Char → Bool
  | [] => pat.isPrefixOf []
  | c :: rest => pat.isPrefixOf (c :: rest) || subListOccurs pat rest

/-- Embedding of Go `strings.Contains(s, pat)`. -/
def strContains (s pat : String) : Bool :=
  subListOccurs pat.data s.data

/-- `StartInstance` from ecs.go: `apiResult` is the raw SDK outcome of the
`StartInstance` API call. An error mentioning `IncorrectInstanceStatus`
(instance not in the stopped state) is logged and swallowed — the wrapper
returns success; any other error is wrapped and propagated. -/
def StartInstance (instanceID : String) (apiResult : Except String Unit) :
    Except String Unit :=
  match apiResult with
  | .ok _ => .ok ()
  | .error e =>
    if strContains e "IncorrectInstanceStatus" then .ok ()
    else .error ("failed to start instance " ++ instanceID ++ ": " ++ e)

/-- `waitForRunning` from monitor.go: poll the status on the 5-second
ticker until `Running` or until the 2-minute deadline. `poll j` is the
j-th `GetInstanceStatus` result; a query error is logged and the loop
continues; `fuel` is the number of ticker firings the deadline admits. -/
def waitForRunning (poll : ℕ → Except String String) : ℕ → ℕ → Except String Unit
  | _, 0 => .error "timeout waiting for instance to start"
  | j, fuel + 1 =>
    match poll j with
    | .error _ => waitForRunning poll (j + 1) fuel
    | .ok s => if s = "Running" then .ok () else waitForRunning poll (j + 1) fuel

/-- The number of 5-second ticker firings within the 2-minute deadline of
`waitForRunning`. -/
def maxWaitPolls : ℕ := 24

/-- The `WaitForHealth` loop body from ping.go: probe until success or
until the deadline; `fuel` is the number of probe attempts the overall
timeout admits at the configured interval. -/
def waitForHealthLoop (probe : ℕ → Bool) : ℕ → ℕ → Except String Unit
  | _, 0 => .error "health check timeout"
  | j, fuel + 1 =>
    if probe j then .ok () else waitForHealthLoop probe (j + 1) fuel

/-- `WaitForHealth` from ping.go: reject an empty address, otherwise run
the probe loop. -/
def WaitForHealth (ip : String) (probe : ℕ → Bool) (fuel : ℕ) :
    Except String Unit :=
  if ip = "" then .error "no IP address provided"
  else waitForHealthLoop probe 0 fuel

/-- The configuration fields the remediation reads (config.go).
`notifier` is whether the Telegram notifier is initialized.
`healthProbeFuel` is the number of probe attempts the health-check
timeout admits at the configured interval. -/
structure Config where
  retryCount : ℕ
  retryInterval : ℕ
  notifyCooldown : ℤ
  notifier : Bool
  healthCheckEnabled : Bool
  healthCheckTimeout : ℕ
  healthProbeFuel : ℕ
deriving DecidableEq

/-- `getEnvInt` from config.go: use the environment value when it is
non-empty and parses as an integer, else the default. `value` is the
`os.Getenv` result (empty when unset). -/
def getEnvInt (value : String) (dflt : ℤ) : ℤ :=
  if value ≠ "" then
    match value.toInt? with
    | some n => n
    | none => dflt
  else dflt

/-- The external ECS/health world one `checkInstance` call interacts
with: the first status query, then per attempt `i` the raw start-API
outcome, the wait-loop status polls, the refresh result and the
reachability probes. -/
structure ECSOracle where
  initialStatus : Except String String
  startRaw : ℕ → Except String Unit
  waitPoll : ℕ → ℕ → Except String String
  refresh : ℕ → Except String SpotInstance
  probe : ℕ → ℕ → Bool

/-- Observable outcome of the retry loop: notifications sent, number of
`StartInstance` attempts issued, the sleep durations performed (seconds,
in order), and the value returned to the caller (`none` = nil error). -/
structure LoopOut where
  events : List Event
  attempts : ℕ
  sleeps : List ℕ
  ret : Option String
deriving DecidableEq

/-- The retry loop of `checkInstance` (monitor.go lines 236-288):
attempt `i` sleeps `RetryInterval` first when `i > 0`; a failed start or
a wait timeout records the error and retries; on Running the instance is
refreshed (a refresh failure keeps the stale record) and the success
alert is sent; exhaustion sends the failure alert with the retry count
and the last error, which is also returned. -/
def startLoop (cfg : Config) (o : ECSOracle) (inst : SpotInstance) :
    ℕ → ℕ → Option String → LoopOut
  | _, 0, lastErr =>
    { events := if cfg.notifier then
        [.startFailed inst.instanceID cfg.retryCount lastErr] else []
      attempts := 0, sleeps := [], ret := lastErr }
  | i, n + 1, _ =>
    let sl : List ℕ := if 0 < i then [cfg.retryInterval] else []
    match StartInstance inst.instanceID (o.startRaw i) with
    | .error e =>
      let r := startLoop cfg o inst (i + 1) n (some e)
      { events := r.events, attempts := r.attempts + 1,
        sleeps := sl ++ r.sleeps, ret := r.ret }
    | .ok _ =>
      match waitForRunning (o.waitPoll i) 0 maxWaitPolls with
      | .error e =>
        let r := startLoop cfg o inst (i + 1) n (some e)
        { events := r.events, attempts := r.attempts + 1,
          sleeps := sl ++ r.sleeps, ret := r.ret }
      | .ok _ =>
        let inst2 := match o.refresh i with
          | .ok u => u
          | .error _ => inst
        { events := if cfg.notifier then
            [.started inst2.instanceID inst2.publicIPAddress] else []
          attempts := 1, sleeps := sl, ret := none }

/-- Observable outcome of one `checkInstance` call. -/
structure CheckOut where
  events : List Event
  ret : Option String
  cooldown : List (String × ℤ)
  attempts : ℕ
  sleeps : List ℕ
deriving DecidableEq

/-- `checkInstance` from monitor.go: a failed status query aborts the
instance's cycle with the wrapped error; a non-Stopped status is a no-op;
a Stopped status emits the reclaimed alert under the cooldown governor
(recording the time exactly when the cooldown allowed it) and runs the
retry loop. -/
def checkInstance (cfg : Config) (o : ECSOracle) (cool : List (String × ℤ))
    (now : ℤ) (inst : SpotInstance) : CheckOut :=
  match o.initialStatus with
  | .error e =>
    { events := [], ret := some ("failed to get status: " ++ e),
      cooldown := cool, attempts := 0, sleeps := [] }
  | .ok status =>
    if status ≠ "Stopped" then
      { events := [], ret := none, cooldown := cool, attempts := 0, sleeps := [] }
    else
      let notifyOK := canNotify cool cfg.notifyCooldown inst.instanceID now
      let ev0 : List Event :=
        if notifyOK && cfg.notifier then [.reclaimed inst.instanceID] else []
      let cool2 := if notifyOK then updateNotifyTime cool inst.instanceID now
        else cool
      let r := startLoop cfg o inst 0 cfg.retryCount none
      { events := ev0 ++ r.events, ret := r.ret, cooldown := cool2,
        attempts := r.attempts, sleeps := r.sleeps }

/-- Modelled from the spec: the health-check integration of the retry
loop, which is absent from the `monitor.go` under `src/` (the repository
declares `HealthCheckEnabled`/`HealthCheckTimeout`/`HealthCheckInterval`
in config.go, `WaitForHealth` in ping.go and the
`NotifyHealthCheckTimeout` alert, but the `checkInstance` wiring that
calls them is not in the provided sources). Identical to `startLoop`
except after Running: when health checking is enabled and the refreshed
instance has a public address, run `WaitForHealth`; probe success emits
the success alert; timeout emits the health-check-timeout alert and ends
the remediation as a success (no retry). -/
def startLoopHC (cfg : Config) (o : ECSOracle) (inst : SpotInstance) :
    ℕ → ℕ → Option String → LoopOut
  | _, 0, lastErr =>
    { events := if cfg.notifier then
        [.startFailed inst.instanceID cfg.retryCount lastErr] else []
      attempts := 0, sleeps := [], ret := lastErr }
  | i, n + 1, _ =>
    let sl : List ℕ := if 0 < i then [cfg.retryInterval] else []
    match StartInstance inst.instanceID (o.startRaw i) with
    | .error e =>
      let r := startLoopHC cfg o inst (i + 1) n (some e)
      { events := r.events, attempts := r.attempts + 1,
        sleeps := sl ++ r.sleeps, ret := r.ret }
    | .ok _ =>
      match waitForRunning (o.waitPoll i) 0 maxWaitPolls with
      | .error e =>
        let r := startLoopHC cfg o inst (i + 1) n (some e)
        { events := r.events, attempts := r.attempts + 1,
          sleeps := sl ++ r.sleeps, ret := r.ret }
      | .ok _ =>
        let inst2 := match o.refresh i with
          | .ok u => u
          | .error _ => inst
        if cfg.healthCheckEnabled && inst2.publicIPAddress != "" then
          match WaitForHealth inst2.publicIPAddress (o.probe i) cfg.healthProbeFuel with
          | .ok _ =>
            { events := if cfg.notifier then
                [.started inst2.instanceID inst2.publicIPAddress] else []
              attempts := 1, sleeps := sl, ret := none }
          | .error _ =>
            { events := if cfg.notifier then
                [.healthCheckTimeout inst2.instanceID inst2.publicIPAddress
                  cfg.healthCheckTimeout] else []
              attempts := 1, sleeps := sl, ret := none }
        else
          { events := if cfg.notifier then
              [.started inst2.instanceID inst2.publicIPAddress] else []
            attempts := 1, sleeps := sl, ret := none }

/-- Modelled from the spec: `checkInstance` with the health-check branch
(see `startLoopHC`); the observe/cooldown/retry structure is that of the
`checkInstance` under `src/`. -/
def checkInstanceHC (cfg : Config) (o : ECSOracle) (cool : List (String × ℤ))
    (now : ℤ) (inst : SpotInstance) : CheckOut :=
  match o.initialStatus with
  | .error e =>
    { events := [], ret := some ("failed to get status: " ++ e),
      cooldown := cool, attempts := 0, sleeps := [] }
  | .ok status =>
    if status ≠ "Stopped" then
      { events := [], ret := none, cooldown := cool, attempts := 0, sleeps := [] }
    else
      let notifyOK := canNotify cool cfg.notifyCooldown inst.instanceID now
      let ev0 : List Event :=
        if notifyOK && cfg.notifier then [.reclaimed inst.instanceID] else []
      let cool2 := if notifyOK then updateNotifyTime cool inst.instanceID now
        else cool
      let r := startLoopHC cfg o inst 0 cfg.retryCount none
      { events := ev0 ++ r.events, ret := r.ret, cooldown := cool2,
        attempts := r.attempts, sleeps := r.sleeps }

/-- One iteration of the `Check` loop (monitor.go lines 196-200): run
`checkInstance`, record the instance's returned error with its id (the
loop only logs it), and carry the cooldown state forward. -/
def checkStep (cfg : Config) (now : ℤ)
    (acc : List (String × Option String) × List (String × ℤ))
    (p : ECSOracle × SpotInstance) :
    List (String × Option String) × List (String × ℤ) :=
  let out := checkInstance cfg p.1 acc.2 now p.2
  (acc.1 ++ [(p.2.instanceID, out.ret)], out.cooldown)

/-- `Check` from monitor.go: iterate the snapshot of tracked instances,
run `checkInstance` on each, log (collect) each instance's returned
error, and never abort the tick. -/
def Check (cfg : Config) (pairs : List (ECSOracle × SpotInstance))
    (cool : List (String × ℤ)) (now : ℤ) :
    List (String × Option String) × List (String × ℤ) :=
  pairs.foldl (checkStep cfg now) ([], cool)

/-- The monitor's shared state: the tracked-instance registry and the
cooldown map. -/
structure MonitorState where
  instances : List SpotInstance
  lastNotify : List (String × ℤ)
deriving DecidableEq

/-- `DiscoverInstances` from monitor.go: replace the registry wholesale
with the provider-side list, then (notifier present, list non-empty)
send the monitor-started notification. Returns the new state, the
notifications sent, and the error returned to the caller. -/
def DiscoverInstances (notifier : Bool)
    (provider : Except String (List SpotInstance)) (st : MonitorState) :
    MonitorState × List Event × Option String :=
  match provider with
  | .error e => (st, [], some ("failed to discover instances: " ++ e))
  | .ok instances =>
    let st2 := { st with instances := instances }
    let ev : List Event :=
      if notifier && decide (0 < instances.length) then
        [.monitorStarted instances.length (instances.map SpotInstance.instanceID)]
      else []
    (st2, ev, none)

/-! ### Concrete fixtures for witnesses and counterexamples -/

/-- A tracked spot instance as discovery records it. -/
def instStopped : SpotInstance :=
  { instanceID := "i-test123", instanceName := "web-server-1",
    regionID := "cn-hangzhou", status := "Stopped", publicIPAddress := "",
    privateIPAddress := "172.16.0.1", spotStrategy := "SpotAsPriceGo" }

/-- The same instance after restart, with its assigned public address. -/
def instRunning : SpotInstance :=
  { instStopped with status := "Running", publicIPAddress := "47.100.1.2" }

/-- The default configuration values of config.go. -/
def cfgDefault : Config :=
  { retryCount := 3, retryInterval := 30, notifyCooldown := 300,
    notifier := true, healthCheckEnabled := true, healthCheckTimeout := 300,
    healthProbeFuel := 30 }

/-- Oracle: the start API reports the benign not-in-stopped-state error,
after which the instance is observed Running. -/
def oracleBenign : ECSOracle :=
  { initialStatus := .ok "Stopped"
    startRaw := fun _ => .error
      "SDK.ServerError ErrorCode: IncorrectInstanceStatus Message: The current status of the resource does not support this operation."
    waitPoll := fun _ _ => .ok "Running"
    refresh := fun _ => .ok instRunning
    probe := fun _ _ => true }

/-- Oracle: every start attempt fails with a retryable provider error. -/
def oracleAllFail : ECSOracle :=
  { initialStatus := .ok "Stopped"
    startRaw := fun _ => .error "InvalidAccountStatus.InsufficientBalance"
    waitPoll := fun _ _ => .ok "Stopped"
    refresh := fun _ => .error "unused"
    probe := fun _ _ => false }

/-- Oracle: the initial status query itself fails. -/
def oracleStatusErr : ECSOracle :=
  { initialStatus := .error "Throttling.User"
    startRaw := fun _ => .ok ()
    waitPoll := fun _ _ => .ok "Running"
    refresh := fun _ => .ok instRunning
    probe := fun _ _ => true }

/-- Oracle: one clean start; polls show Starting twice, then Running. -/
def oracleClean : ECSOracle :=
  { initialStatus := .ok "Stopped"
    startRaw := fun _ => .ok ()
    waitPoll := fun _ j => if j < 2 then .ok "Starting" else .ok "Running"
    refresh := fun _ => .ok instRunning
    probe := fun _ j => decide (3 ≤ j) }

/-! # Theorems -/

/-! ### Fold lemmas for the traffic aggregation -/

lemma trafficStep_total (s : TrafficSummary) (d : RegionTrafficDetail) :
    (trafficStep s d).totalTraffic = s.totalTraffic + d.traffic := by
  unfold trafficStep
  by_cases h : IsChinaMainlandRegion d.businessRegionId = true <;> simp [h]

lemma trafficStep_cm (s : TrafficSummary) (d : RegionTrafficDetail) :
    (trafficStep s d).chinaMainland.traffic =
      s.chinaMainland.traffic +
        (if IsChinaMainlandRegion d.businessRegionId then d.traffic else 0) := by
  unfold trafficStep
  by_cases h : IsChinaMainlandRegion d.businessRegionId = true <;> simp [h]

lemma trafficStep_ncm (s : TrafficSummary) (d : RegionTrafficDetail) :
    (trafficStep s d).nonChinaMainland.traffic =
      s.nonChinaMainland.traffic +
        (if IsChinaMainlandRegion d.businessRegionId then 0 else d.traffic) := by
  unfold trafficStep
  by_cases h : IsChinaMainlandRegion d.businessRegionId = true <;> simp [h]

lemma foldl_traffic_total (details : List RegionTrafficDetail) :
    ∀ s : TrafficSummary,
      (details.foldl trafficStep s).totalTraffic =
        s.totalTraffic + (details.map RegionTrafficDetail.traffic).sum := by
  induction details with
  | nil => intro s; simp
  | cons d rest ih =>
    intro s
    simp only [List.foldl_cons, List.map_cons, List.sum_cons]
    rw [ih, trafficStep_total]
    ring

lemma foldl_traffic_cm (details : List RegionTrafficDetail) :
    ∀ s : TrafficSummary,
      (details.foldl trafficStep s).chinaMainland.traffic =
        s.chinaMainland.traffic +
          ((details.filter fun d => IsChinaMainlandRegion d.businessRegionId).map
            RegionTrafficDetail.traffic).sum := by
  induction details with
  | nil => intro s; simp
  | cons d rest ih =>
    intro s
    simp only [List.foldl_cons]
    rw [ih, trafficStep_cm]
    by_cases h : IsChinaMainlandRegion d.businessRegionId = true
    · simp [List.filter_cons, h]
      ring
    · simp [List.filter_cons, h]

lemma foldl_traffic_ncm (details : List RegionTrafficDetail) :
    ∀ s : TrafficSummary,
      (details.foldl trafficStep s).nonChinaMainland.traffic =
        s.nonChinaMainland.traffic +
          ((details.filter fun d => !IsChinaMainlandRegion d.businessRegionId).map
            RegionTrafficDetail.traffic).sum := by
  induction details with
  | nil => intro s; simp
  | cons d rest ih =>
    intro s
    simp only [List.foldl_cons]
    rw [ih, trafficStep_ncm]
    by_cases h : IsChinaMainlandRegion d.businessRegionId = true
    · simp [List.filter_cons, h]
    · simp [List.filter_cons, h]
      ring

lemma sum_filter_add_sum_filter_not (p : RegionTrafficDetail → Bool)
    (l : List RegionTrafficDetail) :
    ((l.filter p).map RegionTrafficDetail.traffic).sum +
      ((l.filter fun d => !p d).map RegionTrafficDetail.traffic).sum =
      (l.map RegionTrafficDetail.traffic).sum := by
  induction l with
  | nil => simp
  | cons d rest ih =>
    by_cases h : p d = true <;> simp [List.filter_cons, h] <;> omega

/-! ## Claims C7 and C8 -/

/-- C7: for every input list of region traffic records, the China-Mainland
bucket's byte total is the sum over the records classified domestic, the
non-China-Mainland bucket's byte total is the sum over the remaining
records (so each record is attributed to exactly one bucket), and the two
bucket totals add up to the grand total of all records' bytes. -/
theorem traffic_partition_total (details : List RegionTrafficDetail) :
    (categorizeTraffic details).chinaMainland.traffic =
        ((details.filter fun d => IsChinaMainlandRegion d.businessRegionId).map
          RegionTrafficDetail.traffic).sum ∧
    (categorizeTraffic details).nonChinaMainland.traffic =
        ((details.filter fun d => !IsChinaMainlandRegion d.businessRegionId).map
          RegionTrafficDetail.traffic).sum ∧
    (categorizeTraffic details).totalTraffic =
        (details.map RegionTrafficDetail.traffic).sum ∧
    (categorizeTraffic details).chinaMainland.traffic +
        (categorizeTraffic details).nonChinaMainland.traffic =
      (categorizeTraffic details).totalTraffic := by
  simp only [categorizeTraffic]
  have hcm := foldl_traffic_cm details initTrafficSummary
  have hncm := foldl_traffic_ncm details initTrafficSummary
  have htot := foldl_traffic_total details initTrafficSummary
  rw [show initTrafficSummary.chinaMainland.traffic = 0 from rfl, zero_add] at hcm
  rw [show initTrafficSummary.nonChinaMainland.traffic = 0 from rfl, zero_add] at hncm
  rw [show initTrafficSummary.totalTraffic = 0 from rfl, zero_add] at htot
  refine ⟨hcm, hncm, htot, ?_⟩
  rw [hcm, hncm, htot]
  exact sum_filter_add_sum_filter_not _ details

/-- C8: `cn-hongkong` classifies as international despite the `cn-` prefix;
every other `cn-`-prefixed identifier classifies as domestic; every
identifier on the fixed allow-list classifies as domestic. -/
theorem region_classification (r : String)
    (hpre : hasDomesticPrefix r = true) (hhk : r ≠ "cn-hongkong") :
    IsChinaMainlandRegion "cn-hongkong" = false ∧
    IsChinaMainlandRegion r = true ∧
    ∀ a ∈ ChinaMainlandRegions, IsChinaMainlandRegion a = true := by
  refine ⟨by decide, ?_, ?_⟩
  · unfold IsChinaMainlandRegion
    by_cases hmem : r ∈ ChinaMainlandRegions
    · simp [hmem]
    · simp [hmem, hpre, hhk]
  · intro a ha
    unfold IsChinaMainlandRegion
    simp [ha]

/-- Witness for C8 at a concrete prefixed identifier. -/
theorem region_classification_witness :
    IsChinaMainlandRegion "cn-hongkong" = false ∧
    IsChinaMainlandRegion "cn-xinregion" = true ∧
    ∀ a ∈ ChinaMainlandRegions, IsChinaMainlandRegion a = true :=
  region_classification "cn-xinregion" (by decide) (by decide)

lemma lookupTime_update (m : List (String × ℤ)) (id : String) (t : ℤ) :
    lookupTime (updateNotifyTime m id t) id = some t := by
  simp [updateNotifyTime, lookupTime]

/-! ## Claim C5 -/

/-- C5: `canNotify` returns true iff there is no recorded entry or now
minus the recorded time strictly exceeds the cooldown window; after one
`updateNotifyTime`, a query within the window returns false and a query
after the window elapses returns true. -/
theorem canNotify_spec (m : List (String × ℤ)) (c : ℤ) (id : String)
    (t0 n1 n2 : ℤ)
    (hin : n1 - t0 ≤ cooldownWindowNanos c)
    (hout : n2 - t0 > cooldownWindowNanos c) :
    (∀ now : ℤ, canNotify m c id now = true ↔
      (lookupTime m id = none ∨
        ∃ t, lookupTime m id = some t ∧ now - t > cooldownWindowNanos c)) ∧
    canNotify (updateNotifyTime m id t0) c id n1 = false ∧
    canNotify (updateNotifyTime m id t0) c id n2 = true := by
  refine ⟨?_, ?_, ?_⟩
  · intro now
    unfold canNotify
    cases h : lookupTime m id with
    | none => simp
    | some t => simp [h]
  · unfold canNotify
    rw [lookupTime_update]
    simp
    omega
  · unfold canNotify
    rw [lookupTime_update]
    simp
    omega

/-- Witness for C5 with a 300-second cooldown: recorded at t=0, a query at
100 seconds is suppressed, a query at 301 seconds is allowed. -/
theorem canNotify_spec_witness :
    (∀ now : ℤ, canNotify [] 300 "i-test" now = true ↔
      (lookupTime [] "i-test" = none ∨
        ∃ t, lookupTime [] "i-test" = some t ∧
          now - t > cooldownWindowNanos 300)) ∧
    canNotify (updateNotifyTime [] "i-test" 0) 300 "i-test" 100000000000 = false ∧
    canNotify (updateNotifyTime [] "i-test" 0) 300 "i-test" 301000000000 = true :=
  canNotify_spec [] 300 "i-test" 0 100000000000 301000000000
    (by norm_num [cooldownWindowNanos]) (by norm_num [cooldownWindowNanos])

/-! ### Lemmas: the running-seconds fold is a maximum -/

lemma if_gt_eq_max (a v : ℚ) : (if v > a then v else a) = max a v := by
  by_cases h : a < v
  · simp [h, max_eq_right h.le]
  · simp [h, max_eq_left (not_lt.mp h)]

lemma runningSeconds_foldl (tracked : List String) (id : String) :
    ∀ (items : List RawBillItem) (acc : ℚ),
      items.foldl (runningSecondsStep tracked id) acc =
        (eligibleSeconds tracked items id).foldl max acc := by
  intro items
  induction items with
  | nil => intro acc; simp [eligibleSeconds]
  | cons it rest ih =>
    intro acc
    by_cases hc : it.instanceID ∈ tracked ∧ it.instanceID = id ∧
        it.servicePeriodUnit = "秒"
    · cases hp : it.servicePeriod with
      | none =>
        simp only [List.foldl_cons, eligibleSeconds, List.filterMap_cons,
          runningSecondsStep, if_pos hc, hp]
        exact ih acc
      | some v =>
        simp only [List.foldl_cons, eligibleSeconds, List.filterMap_cons,
          runningSecondsStep, if_pos hc, hp]
        rw [ih, if_gt_eq_max]
        rfl
    · simp only [List.foldl_cons, eligibleSeconds, List.filterMap_cons,
        runningSecondsStep, if_neg hc]
      exact ih acc

lemma le_foldl_max (l : List ℚ) : ∀ a : ℚ, a ≤ l.foldl max a := by
  induction l with
  | nil => intro a; simp
  | cons v rest ih =>
    intro a
    exact (le_max_left a v).trans (ih (max a v))

lemma mem_le_foldl_max (l : List ℚ) : ∀ a : ℚ, ∀ v ∈ l, v ≤ l.foldl max a := by
  induction l with
  | nil => intro a v hv; simp at hv
  | cons u rest ih =>
    intro a v hv
    rcases List.mem_cons.mp hv with h | h
    · subst h
      exact (le_max_right a v).trans (le_foldl_max rest (max a v))
    · exact ih (max a u) v h

lemma foldl_max_mem (l : List ℚ) : ∀ a : ℚ, l.foldl max a = a ∨ l.foldl max a ∈ l := by
  induction l with
  | nil => intro a; left; rfl
  | cons u rest ih =>
    intro a
    rcases ih (max a u) with h | h
    · rcases max_choice a u with hm | hm
      · left; simp only [List.foldl_cons]; rw [h, hm]
      · right; simp only [List.foldl_cons]; rw [h, hm]; exact List.mem_cons_self u rest
    · right
      simp only [List.foldl_cons]
      exact List.mem_cons_of_mem u h

/-! ## Claim C3 -/

/-- C3: an instance's `RunningHours` is the maximum seconds-unit service
period among its items, divided by 3600 — never a sum; on the concrete
3600/3600/7200 dedup vector it is 2, and 2 differs from the summed value
(3600+3600+7200)/3600 = 4. -/
theorem running_hours_is_max (tracked : List String) (items : List RawBillItem)
    (id : String)
    (hne : eligibleSeconds tracked items id ≠ [])
    (hnn : ∀ v ∈ eligibleSeconds tracked items id, 0 ≤ v) :
    (∃ m ∈ eligibleSeconds tracked items id,
      (∀ v ∈ eligibleSeconds tracked items id, v ≤ m) ∧
      runningHours tracked items id = m / 3600) ∧
    runningHours ["i-dedup"] exampleBillItems "i-dedup" = 2 ∧
    (2 : ℚ) ≠ (3600 + 3600 + 7200) / 3600 := by
  refine ⟨?_,
    by norm_num [runningHours, runningSeconds, runningSecondsStep, exampleBillItems],
    by norm_num⟩
  have hrs : runningSeconds tracked items id =
      (eligibleSeconds tracked items id).foldl max 0 :=
    runningSeconds_foldl tracked id items 0
  rcases foldl_max_mem (eligibleSeconds tracked items id) 0 with h0 | hmem
  · obtain ⟨v, hv⟩ := List.exists_mem_of_ne_nil _ hne
    have hle : v ≤ 0 := by
      have := mem_le_foldl_max (eligibleSeconds tracked items id) 0 v hv
      rw [h0] at this
      exact this
    have hv0 : v = 0 := le_antisymm hle (hnn v hv)
    refine ⟨v, hv, ?_, ?_⟩
    · intro w hw
      have := mem_le_foldl_max (eligibleSeconds tracked items id) 0 w hw
      rw [h0] at this
      rw [hv0]
      exact this
    · have hs0 : runningSeconds tracked items id = 0 := by rw [hrs, h0]
      simp [runningHours, hs0, hv0]
  · refine ⟨(eligibleSeconds tracked items id).foldl max 0, hmem, ?_, ?_⟩
    · intro w hw
      exact mem_le_foldl_max (eligibleSeconds tracked items id) 0 w hw
    · by_cases hpos : 0 < (eligibleSeconds tracked items id).foldl max 0
      · simp [runningHours, hrs, hpos]
      · have hz : (eligibleSeconds tracked items id).foldl max 0 = 0 :=
          le_antisymm (not_lt.mp hpos) (hnn _ hmem)
        simp [runningHours, hrs, hz]

/-- Witness for C3: on the concrete dedup vector, 7200 is the maximum
eligible period, every eligible period is at most 7200, and
`RunningHours` is 7200/3600 = 2, not the item sum. -/
theorem running_hours_is_max_witness :
    (∃ m ∈ eligibleSeconds ["i-dedup"] exampleBillItems "i-dedup",
      (∀ v ∈ eligibleSeconds ["i-dedup"] exampleBillItems "i-dedup", v ≤ m) ∧
      runningHours ["i-dedup"] exampleBillItems "i-dedup" = m / 3600) ∧
    runningHours ["i-dedup"] exampleBillItems "i-dedup" = 2 ∧
    (2 : ℚ) ≠ (3600 + 3600 + 7200) / 3600 :=
  running_hours_is_max ["i-dedup"] exampleBillItems "i-dedup"
    (by decide) (by decide)

/-! ### Lemmas for the estimate tiers -/

lemma hourlyCost_nonneg (tracked : List String) (items : List RawBillItem)
    (id : String) : 0 ≤ hourlyCost tracked items id := by
  unfold hourlyCost
  by_cases hs : 0 < runningSeconds tracked items id
  · by_cases ht : 0 < instTotalAmount tracked items id
    · simp only [if_pos hs, if_pos ht]
      positivity
    · simp [hs, ht]
  · simp [hs]

lemma foldl_pos_eq_sum (L : List String) (f : String → ℚ)
    (hf : ∀ id ∈ L, 0 ≤ f id) :
    ∀ a : ℚ, L.foldl (fun acc id => if 0 < f id then acc + f id else acc) a =
      a + (L.map f).sum := by
  induction L with
  | nil => intro a; simp
  | cons id rest ih =>
    intro a
    simp only [List.foldl_cons, List.map_cons, List.sum_cons]
    by_cases h : 0 < f id
    · rw [if_pos h, ih (fun j hj => hf j (List.mem_cons_of_mem id hj))]
      ring
    · have hz : f id = 0 :=
        le_antisymm (not_lt.mp h) (hf id (List.mem_cons_self id rest))
      rw [if_neg h, ih (fun j hj => hf j (List.mem_cons_of_mem id hj)), hz]
      ring

lemma sum_pos_iff_exists (L : List String) (f : String → ℚ)
    (hf : ∀ id ∈ L, 0 ≤ f id) :
    0 < (L.map f).sum ↔ ∃ id ∈ L, 0 < f id := by
  induction L with
  | nil => simp
  | cons id rest ih =>
    have hrest := ih (fun j hj => hf j (List.mem_cons_of_mem id hj))
    have hsum : 0 ≤ (rest.map f).sum :=
      List.sum_nonneg (by
        intro x hx
        obtain ⟨j, hj, rfl⟩ := List.mem_map.mp hx
        exact hf j (List.mem_cons_of_mem id hj))
    simp only [List.map_cons, List.sum_cons]
    constructor
    · intro h
      by_cases hh : 0 < f id
      · exact ⟨id, List.mem_cons_self id rest, hh⟩
      · have hz : f id = 0 :=
          le_antisymm (not_lt.mp hh) (hf id (List.mem_cons_self id rest))
        rw [hz, zero_add] at h
        obtain ⟨j, hj, hjpos⟩ := hrest.mp h
        exact ⟨j, List.mem_cons_of_mem id hj, hjpos⟩
    · rintro ⟨j, hj, hjpos⟩
      rcases List.mem_cons.mp hj with h | h
      · subst h
        exact add_pos_of_pos_of_nonneg hjpos hsum
      · have : 0 < (rest.map f).sum := hrest.mpr ⟨j, h, hjpos⟩
        have h0 : 0 ≤ f id := hf id (List.mem_cons_self id rest)
        exact add_pos_of_nonneg_of_pos h0 this

lemma totalHourlyCost_eq_sum (tracked : List String) (items : List RawBillItem) :
    totalHourlyCost tracked items =
      ((billedIds tracked items).map (hourlyCost tracked items)).sum := by
  unfold totalHourlyCost
  rw [foldl_pos_eq_sum _ _ (fun id _ => hourlyCost_nonneg tracked items id), zero_add]

/-! ## Claim C4 -/

/-- C4: the two-tier monthly-estimate policy, evaluated in order. If some
instance has a positive hourly cost, the estimate is the sum of all
instances' hourly costs times 720 and the description is the hourly-rate
one; otherwise, if the total amount is positive, the estimate is the
total divided by elapsed days times 30 with the elapsed-days description;
otherwise it is 0 with no description. `elapsedDays` is `now.Day()`,
hence at least 1. -/
theorem monthly_estimate_tiers (tracked : List String) (items : List RawBillItem)
    (elapsedDays : ℕ) (hd : 1 ≤ elapsedDays) :
    ((∃ id ∈ billedIds tracked items, 0 < hourlyCost tracked items id) →
      (monthlyEstimate tracked items elapsedDays).1 =
        ((billedIds tracked items).map (hourlyCost tracked items)).sum * 720 ∧
      (monthlyEstimate tracked items elapsedDays).2 =
        .hourlyRate (((billedIds tracked items).map (hourlyCost tracked items)).sum)) ∧
    ((∀ id ∈ billedIds tracked items, ¬ 0 < hourlyCost tracked items id) →
      0 < resultTotalAmount tracked items →
      (monthlyEstimate tracked items elapsedDays).1 =
        resultTotalAmount tracked items / (elapsedDays : ℚ) * 30 ∧
      (monthlyEstimate tracked items elapsedDays).2 =
        .byElapsedDays (resultTotalAmount tracked items / (elapsedDays : ℚ))) ∧
    ((∀ id ∈ billedIds tracked items, ¬ 0 < hourlyCost tracked items id) →
      ¬ 0 < resultTotalAmount tracked items →
      (monthlyEstimate tracked items elapsedDays).1 = 0 ∧
      (monthlyEstimate tracked items elapsedDays).2 = .noDescription) := by
  have hsum := totalHourlyCost_eq_sum tracked items
  have hiff := sum_pos_iff_exists (billedIds tracked items)
    (hourlyCost tracked items) (fun id _ => hourlyCost_nonneg tracked items id)
  refine ⟨?_, ?_, ?_⟩
  · intro hex
    have hpos : 0 < totalHourlyCost tracked items := by
      rw [hsum]; exact hiff.mpr hex
    constructor
    · simp only [monthlyEstimate, if_pos hpos]
      rw [hsum]; ring
    · simp only [monthlyEstimate, if_pos hpos]
      rw [hsum]
  · intro hall htot
    have hnpos : ¬ 0 < totalHourlyCost tracked items := by
      rw [hsum]
      intro h
      obtain ⟨id, hid, hpos⟩ := hiff.mp h
      exact hall id hid hpos
    have hdpos : 0 < elapsedDays := hd
    constructor <;> simp [monthlyEstimate, hnpos, htot, hdpos]
  · intro hall htot
    have hnpos : ¬ 0 < totalHourlyCost tracked items := by
      rw [hsum]
      intro h
      obtain ⟨id, hid, hpos⟩ := hiff.mp h
      exact hall id hid hpos
    constructor <;> simp [monthlyEstimate, hnpos, htot]

/-- Witness for C4, tier 1, on the dedup vector: the instance's hourly
cost is 3/2 (> 0), so the estimate is the summed hourly cost times 720. -/
theorem monthly_estimate_tiers_witness :
    (monthlyEstimate ["i-dedup"] exampleBillItems 9).1 =
      ((billedIds ["i-dedup"] exampleBillItems).map
        (hourlyCost ["i-dedup"] exampleBillItems)).sum * 720 ∧
    (monthlyEstimate ["i-dedup"] exampleBillItems 9).2 =
      .hourlyRate (((billedIds ["i-dedup"] exampleBillItems).map
        (hourlyCost ["i-dedup"] exampleBillItems)).sum) :=
  (monthly_estimate_tiers ["i-dedup"] exampleBillItems 9 (by norm_num)).1
    ⟨"i-dedup", by decide,
      by norm_num [hourlyCost, runningSeconds, runningSecondsStep,
        instTotalAmount, exampleBillItems]⟩

/-! ### Wait-loop characterizations -/

lemma waitForRunning_step_err (poll : ℕ → Except String String) (s fuel : ℕ)
    (e : String) (hp : poll s = .error e) :
    waitForRunning poll s (fuel + 1) = waitForRunning poll (s + 1) fuel := by
  rw [waitForRunning, hp]

lemma waitForRunning_step_run (poll : ℕ → Except String String) (s fuel : ℕ)
    (hp : poll s = .ok "Running") :
    waitForRunning poll s (fuel + 1) = .ok () := by
  rw [waitForRunning, hp]
  simp

lemma waitForRunning_step_other (poll : ℕ → Except String String) (s fuel : ℕ)
    (v : String) (hp : poll s = .ok v) (hv : v ≠ "Running") :
    waitForRunning poll s (fuel + 1) = waitForRunning poll (s + 1) fuel := by
  rw [waitForRunning, hp]
  simp [hv]

lemma waitForRunning_ok_iff (poll : ℕ → Except String String) :
    ∀ (fuel s : ℕ),
      (waitForRunning poll s fuel = .ok () ↔
        ∃ j, j < fuel ∧ poll (s + j) = .ok "Running") := by
  intro fuel
  induction fuel with
  | zero =>
    intro s
    simp [waitForRunning]
  | succ fuel ih =>
    intro s
    have hshift : ∀ k : ℕ, s + 1 + k = s + (k + 1) := by omega
    cases hp : poll s with
    | error e =>
      rw [waitForRunning_step_err poll s fuel e hp, ih (s + 1)]
      constructor
      · rintro ⟨j, hj, hrun⟩
        exact ⟨j + 1, by omega, by rw [← hshift j]; exact hrun⟩
      · rintro ⟨j, hj, hrun⟩
        have hj0 : j ≠ 0 := by
          intro h0
          rw [h0, Nat.add_zero, hp] at hrun
          exact Except.noConfusion hrun
        obtain ⟨k, rfl⟩ := Nat.exists_eq_succ_of_ne_zero hj0
        exact ⟨k, by omega, by rw [hshift k]; exact hrun⟩
    | ok v =>
      by_cases hv : v = "Running"
      · subst hv
        rw [waitForRunning_step_run poll s fuel hp]
        simp only [true_iff]
        exact ⟨0, by omega, by rw [Nat.add_zero]; exact hp⟩
      · rw [waitForRunning_step_other poll s fuel v hp hv, ih (s + 1)]
        constructor
        · rintro ⟨j, hj, hrun⟩
          exact ⟨j + 1, by omega, by rw [← hshift j]; exact hrun⟩
        · rintro ⟨j, hj, hrun⟩
          have hj0 : j ≠ 0 := by
            intro h0
            rw [h0, Nat.add_zero, hp] at hrun
            exact hv (Except.ok.inj hrun)
          obtain ⟨k, rfl⟩ := Nat.exists_eq_succ_of_ne_zero hj0
          exact ⟨k, by omega, by rw [hshift k]; exact hrun⟩

lemma waitForRunning_ok_or_timeout (poll : ℕ → Except String String) :
    ∀ (fuel s : ℕ),
      waitForRunning poll s fuel = .ok () ∨
      waitForRunning poll s fuel = .error "timeout waiting for instance to start" := by
  intro fuel
  induction fuel with
  | zero => intro s; right; rfl
  | succ fuel ih =>
    intro s
    cases hp : poll s with
    | error e =>
      rw [waitForRunning_step_err poll s fuel e hp]
      exact ih (s + 1)
    | ok v =>
      by_cases hv : v = "Running"
      · subst hv
        left
        exact waitForRunning_step_run poll s fuel hp
      · rw [waitForRunning_step_other poll s fuel v hp hv]
        exact ih (s + 1)

lemma waitForHealthLoop_ok_iff (probe : ℕ → Bool) :
    ∀ (fuel s : ℕ),
      (waitForHealthLoop probe s fuel = .ok () ↔
        ∃ j, j < fuel ∧ probe (s + j) = true) := by
  intro fuel
  induction fuel with
  | zero => intro s; simp [waitForHealthLoop]
  | succ fuel ih =>
    intro s
    rw [waitForHealthLoop]
    by_cases hp : probe s = true
    · simp only [if_pos hp]
      constructor
      · intro _; exact ⟨0, by omega, by rw [Nat.add_zero]; exact hp⟩
      · intro _; trivial
    · simp only [if_neg hp]
      rw [ih (s + 1)]
      constructor
      · rintro ⟨j, hj, hpr⟩
        exact ⟨j + 1, by omega, by
          have : s + 1 + j = s + (j + 1) := by omega
          rw [← this]; exact hpr⟩
      · rintro ⟨j, hj, hpr⟩
        have hj0 : j ≠ 0 := by
          intro h0
          rw [h0, Nat.add_zero] at hpr
          exact hp hpr
        obtain ⟨k, rfl⟩ := Nat.exists_eq_succ_of_ne_zero hj0
        exact ⟨k, by omega, by
          have : s + 1 + k = s + (k + 1) := by omega
          rw [this]; exact hpr⟩

lemma waitForHealthLoop_ok_or_timeout (probe : ℕ → Bool) :
    ∀ (fuel s : ℕ),
      waitForHealthLoop probe s fuel = .ok () ∨
      waitForHealthLoop probe s fuel = .error "health check timeout" := by
  intro fuel
  induction fuel with
  | zero => intro s; right; rfl
  | succ fuel ih =>
    intro s
    rw [waitForHealthLoop]
    by_cases hp : probe s = true
    · left; rw [if_pos hp]
    · rw [if_neg hp]; exact ih (s + 1)

/-! ## Claim C10 -/

/-- C10: inside `waitForRunning`, a failed status query does not abort
the wait — the loop succeeds exactly when some poll within the deadline
budget observes Running, and otherwise ends with the timeout error; by
contrast, a failure of the initial per-tick status query makes
`checkInstance` return the wrapped error immediately, with no start
attempt, no alert, no sleep and no cooldown change. -/
theorem wait_for_running_skips_poll_errors (poll : ℕ → Except String String)
    (fuel : ℕ) (cfg : Config) (o : ECSOracle) (cool : List (String × ℤ))
    (now : ℤ) (inst : SpotInstance) (e : String)
    (hini : o.initialStatus = .error e) :
    (waitForRunning poll 0 fuel = .ok () ↔
      ∃ j, j < fuel ∧ poll j = .ok "Running") ∧
    (waitForRunning poll 0 fuel = .error "timeout waiting for instance to start" ↔
      ¬ ∃ j, j < fuel ∧ poll j = .ok "Running") ∧
    checkInstance cfg o cool now inst =
      { events := [], ret := some ("failed to get status: " ++ e),
        cooldown := cool, attempts := 0, sleeps := [] } := by
  have hiff := waitForRunning_ok_iff poll fuel 0
  simp only [Nat.zero_add] at hiff
  refine ⟨hiff, ?_, ?_⟩
  · constructor
    · intro h hex
      rw [hiff.mpr hex] at h
      exact Except.noConfusion h
    · intro hnex
      rcases waitForRunning_ok_or_timeout poll fuel 0 with h | h
      · exact absurd (hiff.mp h) hnex
      · exact h
  · simp [checkInstance, hini]

/-- Witness for C10: with the clean oracle's poll sequence (Starting,
Starting, Running) the wait succeeds within the 24-tick budget, and with
the failing-status oracle `checkInstance` aborts the cycle immediately. -/
theorem wait_for_running_skips_poll_errors_witness :
    (waitForRunning (oracleClean.waitPoll 0) 0 maxWaitPolls = .ok () ↔
      ∃ j, j < maxWaitPolls ∧ oracleClean.waitPoll 0 j = .ok "Running") ∧
    (waitForRunning (oracleClean.waitPoll 0) 0 maxWaitPolls =
        .error "timeout waiting for instance to start" ↔
      ¬ ∃ j, j < maxWaitPolls ∧ oracleClean.waitPoll 0 j = .ok "Running") ∧
    checkInstance cfgDefault oracleStatusErr [] 0 instStopped =
      { events := [], ret := some ("failed to get status: " ++ "Throttling.User"),
        cooldown := [], attempts := 0, sleeps := [] } :=
  wait_for_running_skips_poll_errors (oracleClean.waitPoll 0) maxWaitPolls
    cfgDefault oracleStatusErr [] 0 instStopped "Throttling.User" rfl

/-! ### Retry-exhaustion lemmas -/

lemma benign_marker_not_in_balance_error :
    strContains "InvalidAccountStatus.InsufficientBalance"
      "IncorrectInstanceStatus" = false := by decide

lemma StartInstance_wrapped_error (inst : SpotInstance) (o : ECSOracle)
    (e : ℕ → String) (i : ℕ)
    (hs : ∀ i, o.startRaw i = .error (e i))
    (hb : ∀ i, strContains (e i) "IncorrectInstanceStatus" = false) :
    StartInstance inst.instanceID (o.startRaw i) =
      .error ("failed to start instance " ++ inst.instanceID ++ ": " ++ e i) := by
  rw [hs i]
  simp [StartInstance, hb i]

lemma startLoop_all_fail (cfg : Config) (o : ECSOracle) (inst : SpotInstance)
    (e : ℕ → String)
    (hs : ∀ i, o.startRaw i = .error (e i))
    (hb : ∀ i, strContains (e i) "IncorrectInstanceStatus" = false) :
    ∀ (n i : ℕ) (lastErr : Option String),
      startLoop cfg o inst i (n + 1) lastErr =
        { events := if cfg.notifier then
            [.startFailed inst.instanceID cfg.retryCount
              (some ("failed to start instance " ++ inst.instanceID ++ ": " ++
                e (i + n)))]
          else []
          attempts := n + 1
          sleeps := (if 0 < i then [cfg.retryInterval] else []) ++
            List.replicate n cfg.retryInterval
          ret := some ("failed to start instance " ++ inst.instanceID ++ ": " ++
            e (i + n)) } := by
  intro n
  induction n with
  | zero =>
    intro i lastErr
    rw [startLoop, StartInstance_wrapped_error inst o e i hs hb]
    simp [startLoop]
  | succ n ih =>
    intro i lastErr
    rw [startLoop, StartInstance_wrapped_error inst o e i hs hb]
    simp only [ih (i + 1)]
    have hidx : i + 1 + n = i + (n + 1) := by omega
    rw [hidx]
    simp [List.replicate_succ]

lemma foldl_checkStep_length (cfg : Config) (now : ℤ) :
    ∀ (pairs : List (ECSOracle × SpotInstance))
      (acc : List (String × Option String) × List (String × ℤ)),
      ((pairs.foldl (checkStep cfg now) acc).1).length =
        acc.1.length + pairs.length := by
  intro pairs
  induction pairs with
  | nil => intro acc; simp
  | cons p rest ih =>
    intro acc
    simp only [List.foldl_cons]
    rw [ih]
    simp [checkStep]
    omega

/-! ## Claim C6 -/

/-- C6: when every start attempt fails with a (non-benign) retryable
error, the remediation performs exactly `RetryCount` start attempts,
sleeps the fixed `RetryInterval` before every attempt after the first,
emits exactly one failure alert carrying the attempt count and the last
(wrapped) error, and returns that error; the defaults of config.go are
RETRY_COUNT = 3 and RETRY_INTERVAL = 30; and the `Check` tick produces a
result for every tracked instance regardless of per-instance errors. -/
theorem retry_exhaustion (cfg : Config) (o : ECSOracle) (cool : List (String × ℤ))
    (now : ℤ) (inst : SpotInstance) (e : ℕ → String) (n : ℕ)
    (hrc : cfg.retryCount = n + 1)
    (hnotif : cfg.notifier = true)
    (hini : o.initialStatus = .ok "Stopped")
    (hs : ∀ i, o.startRaw i = .error (e i))
    (hb : ∀ i, strContains (e i) "IncorrectInstanceStatus" = false) :
    (checkInstance cfg o cool now inst).attempts = cfg.retryCount ∧
    (checkInstance cfg o cool now inst).sleeps =
      List.replicate (cfg.retryCount - 1) cfg.retryInterval ∧
    (checkInstance cfg o cool now inst).events.filter Event.isStartFailed =
      [.startFailed inst.instanceID cfg.retryCount
        (some ("failed to start instance " ++ inst.instanceID ++ ": " ++
          e (cfg.retryCount - 1)))] ∧
    (checkInstance cfg o cool now inst).ret =
      some ("failed to start instance " ++ inst.instanceID ++ ": " ++
        e (cfg.retryCount - 1)) ∧
    getEnvInt "" 3 = 3 ∧ getEnvInt "" 30 = 30 ∧
    ∀ (pairs : List (ECSOracle × SpotInstance)) (cool2 : List (String × ℤ)),
      ((Check cfg pairs cool2 now).1).length = pairs.length := by
  have hloop := startLoop_all_fail cfg o inst e hs hb n 0 none
  rw [Nat.zero_add] at hloop
  have hcheck : checkInstance cfg o cool now inst =
      { events :=
          (if canNotify cool cfg.notifyCooldown inst.instanceID now && cfg.notifier
            then [.reclaimed inst.instanceID] else []) ++
            (startLoop cfg o inst 0 cfg.retryCount none).events
        ret := (startLoop cfg o inst 0 cfg.retryCount none).ret
        cooldown := if canNotify cool cfg.notifyCooldown inst.instanceID now
          then updateNotifyTime cool inst.instanceID now else cool
        attempts := (startLoop cfg o inst 0 cfg.retryCount none).attempts
        sleeps := (startLoop cfg o inst 0 cfg.retryCount none).sleeps } := by
    simp [checkInstance, hini]
  rw [hrc] at hcheck
  rw [hcheck, hloop]
  have hsub : n + 1 - 1 = n := by omega
  rw [hrc, hsub, hnotif]
  refine ⟨by simp, by simp, ?_, by simp, rfl, rfl, ?_⟩
  · by_cases hcn : canNotify cool cfg.notifyCooldown inst.instanceID now = true <;>
      simp [hcn, List.filter_append, Event.isStartFailed]
  · intro pairs cool2
    have := foldl_checkStep_length cfg now pairs ([], cool2)
    simpa [Check] using this

/-- Witness for C6 at the default configuration: three start attempts,
two 30-second sleeps, one failure alert with count 3 and the wrapped
last error; the returned error matches; and the defaults evaluate. -/
theorem retry_exhaustion_witness :
    (checkInstance cfgDefault oracleAllFail [] 0 instStopped).attempts =
      cfgDefault.retryCount ∧
    (checkInstance cfgDefault oracleAllFail [] 0 instStopped).sleeps =
      List.replicate (cfgDefault.retryCount - 1) cfgDefault.retryInterval ∧
    (checkInstance cfgDefault oracleAllFail [] 0 instStopped).events.filter
        Event.isStartFailed =
      [.startFailed instStopped.instanceID cfgDefault.retryCount
        (some ("failed to start instance " ++ instStopped.instanceID ++ ": " ++
          "InvalidAccountStatus.InsufficientBalance"))] ∧
    (checkInstance cfgDefault oracleAllFail [] 0 instStopped).ret =
      some ("failed to start instance " ++ instStopped.instanceID ++ ": " ++
        "InvalidAccountStatus.InsufficientBalance") ∧
    getEnvInt "" 3 = 3 ∧ getEnvInt "" 30 = 30 ∧
    ∀ (pairs : List (ECSOracle × SpotInstance)) (cool2 : List (String × ℤ)),
      ((Check cfgDefault pairs cool2 0).1).length = pairs.length :=
  retry_exhaustion cfgDefault oracleAllFail [] 0 instStopped
    (fun _ => "InvalidAccountStatus.InsufficientBalance") 2 rfl rfl rfl
    (fun _ => rfl) (fun _ => benign_marker_not_in_balance_error)

/-! ## Claim C2 -/

/-- C2 counterexample: with the benign not-in-stopped-state start error
and the instance then observed Running, the remediation does NOT end
without the success notification — `StartInstance` swallows the error,
the attempt proceeds to the wait phase, and the success alert IS emitted.
This refutes the claimed success-without-notification short-circuit. -/
theorem benign_error_success_alert_counterexample :
    StartInstance instStopped.instanceID (oracleBenign.startRaw 0) = .ok () ∧
    (checkInstance cfgDefault oracleBenign [] 0 instStopped).events =
      [.reclaimed "i-test123", .started "i-test123" "47.100.1.2"] ∧
    Event.started "i-test123" "47.100.1.2" ∈
      (checkInstance cfgDefault oracleBenign [] 0 instStopped).events := by
  refine ⟨rfl, by decide, by decide⟩

/-- C2 amended: the benign `IncorrectInstanceStatus` start failure is
converted to success inside the ECS wrapper, so the attempt neither
fails nor counts as a retry trigger; remediation does not short-circuit —
it proceeds to the wait phase, and when the instance reaches Running the
remediation ends as a success after that single attempt WITH the success
notification emitted (and no failure alert). -/
theorem benign_start_error_not_retry (cfg : Config) (o : ECSOracle)
    (cool : List (String × ℤ)) (now : ℤ) (inst inst2 : SpotInstance)
    (n : ℕ) (e : String)
    (hrc : cfg.retryCount = n + 1)
    (hnotif : cfg.notifier = true)
    (hini : o.initialStatus = .ok "Stopped")
    (he : o.startRaw 0 = .error e)
    (hbenign : strContains e "IncorrectInstanceStatus" = true)
    (hwait : ∃ j, j < maxWaitPolls ∧ o.waitPoll 0 j = .ok "Running")
    (hrefresh : o.refresh 0 = .ok inst2) :
    StartInstance inst.instanceID (o.startRaw 0) = .ok () ∧
    (checkInstance cfg o cool now inst).attempts = 1 ∧
    (checkInstance cfg o cool now inst).ret = none ∧
    (checkInstance cfg o cool now inst).events.filter Event.isStarted =
      [.started inst2.instanceID inst2.publicIPAddress] ∧
    (checkInstance cfg o cool now inst).events.filter Event.isStartFailed = [] := by
  have hsi : StartInstance inst.instanceID (o.startRaw 0) = .ok () := by
    rw [he]
    simp [StartInstance, hbenign]
  have hwr : waitForRunning (o.waitPoll 0) 0 maxWaitPolls = .ok () := by
    refine (waitForRunning_ok_iff (o.waitPoll 0) maxWaitPolls 0).mpr ?_
    simpa using hwait
  have hloop : startLoop cfg o inst 0 (n + 1) none =
      { events := [.started inst2.instanceID inst2.publicIPAddress],
        attempts := 1, sleeps := [], ret := none } := by
    rw [startLoop, hsi]
    simp [hwr, hrefresh, hnotif]
  have hcheck : checkInstance cfg o cool now inst =
      { events :=
          (if canNotify cool cfg.notifyCooldown inst.instanceID now && cfg.notifier
            then [.reclaimed inst.instanceID] else []) ++
            (startLoop cfg o inst 0 cfg.retryCount none).events
        ret := (startLoop cfg o inst 0 cfg.retryCount none).ret
        cooldown := if canNotify cool cfg.notifyCooldown inst.instanceID now
          then updateNotifyTime cool inst.instanceID now else cool
        attempts := (startLoop cfg o inst 0 cfg.retryCount none).attempts
        sleeps := (startLoop cfg o inst 0 cfg.retryCount none).sleeps } := by
    simp [checkInstance, hini]
  rw [hrc] at hcheck
  rw [hcheck, hloop]
  refine ⟨hsi, by simp, by simp, ?_, ?_⟩
  · by_cases hcn : canNotify cool cfg.notifyCooldown inst.instanceID now = true <;>
      simp [hcn, List.filter_append, Event.isStarted]
  · by_cases hcn : canNotify cool cfg.notifyCooldown inst.instanceID now = true <;>
      simp [hcn, List.filter_append, Event.isStartFailed]

/-- Witness for the amended C2 on the concrete benign-error oracle. -/
theorem benign_start_error_not_retry_witness :
    StartInstance instStopped.instanceID (oracleBenign.startRaw 0) = .ok () ∧
    (checkInstance cfgDefault oracleBenign [] 0 instStopped).attempts = 1 ∧
    (checkInstance cfgDefault oracleBenign [] 0 instStopped).ret = none ∧
    (checkInstance cfgDefault oracleBenign [] 0 instStopped).events.filter
        Event.isStarted =
      [.started instRunning.instanceID instRunning.publicIPAddress] ∧
    (checkInstance cfgDefault oracleBenign [] 0 instStopped).events.filter
        Event.isStartFailed = [] :=
  benign_start_error_not_retry cfgDefault oracleBenign [] 0 instStopped
    instRunning 2
    "SDK.ServerError ErrorCode: IncorrectInstanceStatus Message: The current status of the resource does not support this operation."
    rfl rfl rfl rfl (by decide) ⟨0, by norm_num [maxWaitPolls], rfl⟩ rfl

/-! ## Claim C9 -/

/-- C9 counterexample: discovery with a non-empty provider list and the
notifier present DOES send a notification (the monitor-started message),
so "discovery itself triggers no alert" is false as stated. -/
theorem discovery_alert_counterexample :
    (DiscoverInstances true (.ok [instStopped]) ⟨[], []⟩).2.1 =
      [.monitorStarted 1 ["i-test123"]] ∧
    (DiscoverInstances true (.ok [instStopped]) ⟨[], []⟩).2.1 ≠ [] := by
  refine ⟨by decide, by decide⟩

/-- C9 amended: a second discovery with the unchanged provider-side list
produces a monitor state (registry snapshot and cooldown map) equal to
the first, and discovery emits no remediation alert — every notification
it sends is the monitor-started message (none is a reclaimed, started,
start-failed or health-check-timeout alert). -/
theorem discovery_idempotent (notifier : Bool) (L : List SpotInstance)
    (st : MonitorState) :
    (DiscoverInstances notifier (.ok L)
        (DiscoverInstances notifier (.ok L) st).1).1 =
      (DiscoverInstances notifier (.ok L) st).1 ∧
    (∀ ev ∈ (DiscoverInstances notifier (.ok L) st).2.1,
      ev.isMonitorStarted = true) ∧
    (∀ ev ∈ (DiscoverInstances notifier (.ok L)
        (DiscoverInstances notifier (.ok L) st).1).2.1,
      ev.isMonitorStarted = true) := by
  refine ⟨rfl, ?_, ?_⟩ <;>
  · intro ev hev
    simp only [DiscoverInstances] at hev
    by_cases h : (notifier && decide (0 < L.length)) = true
    · rw [if_pos h] at hev
      simp only [List.mem_singleton] at hev
      rw [hev]
      rfl
    · rw [if_neg h] at hev
      simp at hev

/-- Witness for the amended C9 at a concrete one-instance discovery. -/
theorem discovery_idempotent_witness :
    (DiscoverInstances true (.ok [instStopped])
        (DiscoverInstances true (.ok [instStopped]) ⟨[], []⟩).1).1 =
      (DiscoverInstances true (.ok [instStopped]) ⟨[], []⟩).1 ∧
    (∀ ev ∈ (DiscoverInstances true (.ok [instStopped]) ⟨[], []⟩).2.1,
      ev.isMonitorStarted = true) ∧
    (∀ ev ∈ (DiscoverInstances true (.ok [instStopped])
        (DiscoverInstances true (.ok [instStopped]) ⟨[], []⟩).1).2.1,
      ev.isMonitorStarted = true) :=
  discovery_idempotent true [instStopped] ⟨[], []⟩

/-! ## Claim C1 -/

/-- C1 (against the spec-modelled health-check integration, see
`startLoopHC`): after the restarted instance reaches Running with health
checking enabled and a public address present, the remediation enters the
health-check phase, whose probe loop succeeds exactly when some probe
within the timeout budget is reachable; probe success emits the success
alert and ends the remediation; probe timeout emits the distinct
health-check-timeout alert and ends the remediation as a non-retried
success for this tick (one attempt, nil error, no failure alert). -/
theorem health_check_remediation (cfg : Config) (o : ECSOracle)
    (cool : List (String × ℤ)) (now : ℤ) (inst inst2 : SpotInstance) (n : ℕ)
    (hrc : cfg.retryCount = n + 1)
    (hnotif : cfg.notifier = true)
    (hhc : cfg.healthCheckEnabled = true)
    (hini : o.initialStatus = .ok "Stopped")
    (hstart : StartInstance inst.instanceID (o.startRaw 0) = .ok ())
    (hwait : ∃ j, j < maxWaitPolls ∧ o.waitPoll 0 j = .ok "Running")
    (hrefresh : o.refresh 0 = .ok inst2)
    (hip : inst2.publicIPAddress ≠ "") :
    (WaitForHealth inst2.publicIPAddress (o.probe 0) cfg.healthProbeFuel = .ok () ↔
      ∃ j, j < cfg.healthProbeFuel ∧ o.probe 0 j = true) ∧
    ((∃ j, j < cfg.healthProbeFuel ∧ o.probe 0 j = true) →
      (checkInstanceHC cfg o cool now inst).attempts = 1 ∧
      (checkInstanceHC cfg o cool now inst).ret = none ∧
      (checkInstanceHC cfg o cool now inst).events.filter Event.isStarted =
        [.started inst2.instanceID inst2.publicIPAddress] ∧
      (checkInstanceHC cfg o cool now inst).events.filter
        Event.isHealthCheckTimeout = []) ∧
    ((∀ j, j < cfg.healthProbeFuel → o.probe 0 j = false) →
      (checkInstanceHC cfg o cool now inst).attempts = 1 ∧
      (checkInstanceHC cfg o cool now inst).ret = none ∧
      (checkInstanceHC cfg o cool now inst).events.filter Event.isStarted = [] ∧
      (checkInstanceHC cfg o cool now inst).events.filter
          Event.isHealthCheckTimeout =
        [.healthCheckTimeout inst2.instanceID inst2.publicIPAddress
          cfg.healthCheckTimeout] ∧
      (checkInstanceHC cfg o cool now inst).events.filter
        Event.isStartFailed = []) := by
  have hwfh : WaitForHealth inst2.publicIPAddress (o.probe 0) cfg.healthProbeFuel =
      waitForHealthLoop (o.probe 0) 0 cfg.healthProbeFuel := by
    simp [WaitForHealth, hip]
  have hiff : WaitForHealth inst2.publicIPAddress (o.probe 0) cfg.healthProbeFuel =
      .ok () ↔ ∃ j, j < cfg.healthProbeFuel ∧ o.probe 0 j = true := by
    rw [hwfh]
    have := waitForHealthLoop_ok_iff (o.probe 0) cfg.healthProbeFuel 0
    simpa using this
  have hwr : waitForRunning (o.waitPoll 0) 0 maxWaitPolls = .ok () := by
    refine (waitForRunning_ok_iff (o.waitPoll 0) maxWaitPolls 0).mpr ?_
    simpa using hwait
  have hguard : (cfg.healthCheckEnabled && (inst2.publicIPAddress != "")) = true := by
    simp [hhc, bne_iff_ne, hip]
  have hcheck : checkInstanceHC cfg o cool now inst =
      { events :=
          (if canNotify cool cfg.notifyCooldown inst.instanceID now && cfg.notifier
            then [.reclaimed inst.instanceID] else []) ++
            (startLoopHC cfg o inst 0 cfg.retryCount none).events
        ret := (startLoopHC cfg o inst 0 cfg.retryCount none).ret
        cooldown := if canNotify cool cfg.notifyCooldown inst.instanceID now
          then updateNotifyTime cool inst.instanceID now else cool
        attempts := (startLoopHC cfg o inst 0 cfg.retryCount none).attempts
        sleeps := (startLoopHC cfg o inst 0 cfg.retryCount none).sleeps } := by
    simp [checkInstanceHC, hini]
  rw [hrc] at hcheck
  refine ⟨hiff, ?_, ?_⟩
  · intro hex
    have hwh : WaitForHealth inst2.publicIPAddress (o.probe 0)
        cfg.healthProbeFuel = .ok () := hiff.mpr hex
    have hloop : startLoopHC cfg o inst 0 (n + 1) none =
        { events := [.started inst2.instanceID inst2.publicIPAddress],
          attempts := 1, sleeps := [], ret := none } := by
      rw [startLoopHC, hstart]
      simp [hwr, hrefresh, hguard, hwh, hnotif]
    rw [hcheck, hloop]
    refine ⟨by simp, by simp, ?_, ?_⟩
    · by_cases hcn : canNotify cool cfg.notifyCooldown inst.instanceID now = true <;>
        simp [hcn, List.filter_append, Event.isStarted]
    · by_cases hcn : canNotify cool cfg.notifyCooldown inst.instanceID now = true <;>
        simp [hcn, List.filter_append, Event.isHealthCheckTimeout]
  · intro hall
    have hnok : ¬ WaitForHealth inst2.publicIPAddress (o.probe 0)
        cfg.healthProbeFuel = .ok () := by
      rw [hiff]
      rintro ⟨j, hj, hpr⟩
      rw [hall j hj] at hpr
      exact Bool.noConfusion hpr
    have hwh : WaitForHealth inst2.publicIPAddress (o.probe 0)
        cfg.healthProbeFuel = .error "health check timeout" := by
      rcases waitForHealthLoop_ok_or_timeout (o.probe 0) cfg.healthProbeFuel 0 with h | h
      · rw [hwfh] at hnok
        exact absurd h hnok
      · rw [hwfh]
        exact h
    have hloop : startLoopHC cfg o inst 0 (n + 1) none =
        { events := [.healthCheckTimeout inst2.instanceID inst2.publicIPAddress
            cfg.healthCheckTimeout],
          attempts := 1, sleeps := [], ret := none } := by
      rw [startLoopHC, hstart]
      simp [hwr, hrefresh, hguard, hwh, hnotif]
    rw [hcheck, hloop]
    refine ⟨by simp, by simp, ?_, ?_, ?_⟩
    · by_cases hcn : canNotify cool cfg.notifyCooldown inst.instanceID now = true <;>
        simp [hcn, List.filter_append, Event.isStarted]
    · by_cases hcn : canNotify cool cfg.notifyCooldown inst.instanceID now = true <;>
        simp [hcn, List.filter_append, Event.isHealthCheckTimeout]
    · by_cases hcn : canNotify cool cfg.notifyCooldown inst.instanceID now = true <;>
        simp [hcn, List.filter_append, Event.isStartFailed]

/-- Witness for C1 on the clean oracle (probes succeed from the fourth
attempt, well inside the probe budget): one attempt, nil error, success
alert emitted, no health-check-timeout alert. -/
theorem health_check_remediation_witness :
    (checkInstanceHC cfgDefault oracleClean [] 0 instStopped).attempts = 1 ∧
    (checkInstanceHC cfgDefault oracleClean [] 0 instStopped).ret = none ∧
    (checkInstanceHC cfgDefault oracleClean [] 0 instStopped).events.filter
        Event.isStarted =
      [.started instRunning.instanceID instRunning.publicIPAddress] ∧
    (checkInstanceHC cfgDefault oracleClean [] 0 instStopped).events.filter
      Event.isHealthCheckTimeout = [] :=
  (health_check_remediation cfgDefault oracleClean [] 0 instStopped instRunning 2
    rfl rfl rfl rfl rfl ⟨2, by norm_num [maxWaitPolls], rfl⟩ rfl
    (by decide)).2.1 ⟨3, by norm_num [cfgDefault], by decide⟩

end AliyunSpot
